import Mathlib

/-!
Shallow embedding of `carp` (src/main.rs): a bootstrap/supervisor tool that
checks and installs three external binaries, generates a chain spec, purges
chain data, launches two long-running node processes and tears them down on
the interrupt signal.

External effects (spawning processes, waiting on them) are modelled by an
oracle `Sys` that fixes, for every command line (binary name plus argument
list), whether `spawn` succeeds, whether `wait` succeeds, the exit status
`wait` reports, and the OS process id a successful spawn receives.  Each
embedded function returns its Rust result together with the list of spawn
attempts it performed, in order, so that properties about which external
commands are invoked (and in which order) can be stated as properties of
that action trace.  Rust panics (`expect`) are modelled with `Option`:
`none` is a panic, `some r` a normal return of `r`.
-/

namespace Carp

/-- Reference kind of a git-sourced install (mirrors `enum GitInstallType`). -/
inductive GitInstallType
  | Tag
  | CommitHash
deriving DecidableEq, Repr

/-- Mirrors `struct GitOptions { url, tag_or_hash, install_type }`. -/
structure GitOptions where
  url : String
  tag_or_hash : String
  install_type : GitInstallType
deriving DecidableEq, Repr

/-- Mirrors `struct Dependency { bin, install_bin, git }`. -/
structure Dependency where
  bin : String
  install_bin : String
  git : Option GitOptions
deriving DecidableEq, Repr

/-- The two ways an embedded `std::io` operation can fail in this model:
the OS refused to start the command, or waiting on it failed. -/
inductive IOErr
  | spawnErr
  | waitErr
deriving DecidableEq, Repr

/-- A process handle as returned by `Command::spawn`: we record the command
line it was started with; the oracle maps it to a pid and exit status. -/
structure Child where
  bin : String
  args : List String
deriving DecidableEq, Repr

/-- One observable external action of the program: either a presence probe
(`Command::new(bin)` with both output streams discarded, no arguments) or an
ordinary spawn attempt of a command line. -/
inductive Action
  | probe (bin : String)
  | spawnCmd (bin : String) (args : List String)
deriving DecidableEq, Repr

/-- The environment oracle: outcome of every external-process operation,
keyed by the command line. -/
structure Sys where
  /-- does `Command::spawn` succeed for this command line? -/
  spawnOk : String → List String → Bool
  /-- does `Child::wait` return `Ok` for this command line? -/
  waitOk : String → List String → Bool
  /-- the exit status `wait` reports (0 = success, nonzero = failure). -/
  exitStatus : String → List String → Int
  /-- the OS pid a successfully spawned command receives. -/
  pid : String → List String → Nat

/-- Mirrors `generate_child_process(bin_name, args)`:
`Command::new(bin_name).args(args).spawn()`.  Returns the spawn result and
records the spawn attempt. -/
def generate_child_process (sys : Sys) (bin : String) (args : List String) :
    Except IOErr Child × List Action :=
  (if sys.spawnOk bin args then Except.ok ⟨bin, args⟩ else Except.error IOErr.spawnErr,
   [Action.spawnCmd bin args])

/-- Mirrors `Child::wait()`: blocks until the process exits and returns its
exit status, or an io error. -/
def waitChild (sys : Sys) (c : Child) : Except IOErr Int :=
  if sys.waitOk c.bin c.args then Except.ok (sys.exitStatus c.bin c.args)
  else Except.error IOErr.waitErr

/-- Argument list of the external `kill` invocation for a given pid. -/
def killArgs (id : Nat) : List String := ["-s", "TERM", toString id]

/-- Mirrors `kill_process(id)`:
`generate_child_process("kill", ["-s", "TERM", &id.to_string()])?.wait()`.
The result is the `kill` command's own wait result; the target process is
never waited on. -/
def kill_process (sys : Sys) (id : Nat) : Except IOErr Int × List Action :=
  match generate_child_process sys "kill" (killArgs id) with
  | (Except.ok c, t) => (waitChild sys c, t)
  | (Except.error e, t) => (Except.error e, t)

/-- The argument list `install_dependency` passes to `cargo`, by source
descriptor: plain `install` for no git source, `--tag`-pinned for a `Tag`
reference and `--rev`-pinned for a `CommitHash` reference. -/
def installArgs (dep : Dependency) : List String :=
  match dep.git with
  | some git =>
    match git.install_type with
    | GitInstallType.Tag =>
        ["install", "--git", git.url, "--tag", git.tag_or_hash, dep.install_bin]
    | GitInstallType.CommitHash =>
        ["install", "--git", git.url, "--rev", git.tag_or_hash, dep.install_bin]
  | none => ["install", dep.install_bin]

/-- Mirrors `install_dependency(dep)`.  In the source every branch runs
`let _ = generate_child_process("cargo", [...])?.wait();` — the `?` turns a
spawn failure into `Err`, but the `wait` result (hence the install command's
exit status) is discarded and the function returns `Ok(())`. -/
def install_dependency (sys : Sys) (dep : Dependency) :
    Except IOErr Unit × List Action :=
  match generate_child_process sys "cargo" (installArgs dep) with
  | (Except.ok c, t) =>
      let _ := waitChild sys c
      (Except.ok (), t)
  | (Except.error e, t) => (Except.error e, t)

/-- The loop body of `check_dependencies`, one dependency at a time, in list
order.  A present probe (`spawn` of `dep.bin` with discarded output streams
succeeds) skips installation; an absent one runs
`install_dependency(dep).expect(...)`, whose `Err` is a panic (`none`) that
stops the whole traversal. -/
def check_deps_go (sys : Sys) : List Dependency → Option Unit × List Action
  | [] => (some (), [])
  | dep :: rest =>
    if sys.spawnOk dep.bin [] then
      let r := check_deps_go sys rest
      (r.1, Action.probe dep.bin :: r.2)
    else
      match install_dependency sys dep with
      | (Except.ok _, ti) =>
          let r := check_deps_go sys rest
          (r.1, Action.probe dep.bin :: (ti ++ r.2))
      | (Except.error _, ti) => (none, Action.probe dep.bin :: ti)

/-- Mirrors `check_dependencies(dependencies)`: iterates the loop body and,
when no panic occurred, returns the literal `Ok(())` of the source's last
line.  The declared `io::Error` result type is kept from the source. -/
def check_dependencies (sys : Sys) (deps : List Dependency) :
    Option (Except IOErr Unit) × List Action :=
  let r := check_deps_go sys deps
  (r.1.map (fun _ => Except.ok ()), r.2)

/-- `const POLKADOT_OMNI_NODE_BIN`. -/
def POLKADOT_OMNI_NODE_BIN : String := "polkadot-omni-node"

/-- `const CHAIN_SPEC_BUILDER`. -/
def CHAIN_SPEC_BUILDER : String := "chain-spec-builder"

/-- `const ETH_RPC_BIN`. -/
def ETH_RPC_BIN : String := "eth-rpc"

/-- The `git_options` value built at the top of `main`. -/
def git_options : GitOptions :=
  ⟨"https://github.com/paritytech/polkadot-sdk.git", "polkadot-stable2412",
   GitInstallType.Tag⟩

/-- The concrete `dependencies` vector of `main`. -/
def dependencies : List Dependency :=
  [⟨POLKADOT_OMNI_NODE_BIN, POLKADOT_OMNI_NODE_BIN, some git_options⟩,
   ⟨CHAIN_SPEC_BUILDER, "staging-chain-spec-builder", some git_options⟩,
   ⟨ETH_RPC_BIN, "pallet-revive-eth-rpc",
    some ⟨"https://github.com/paritytech/polkadot-sdk.git",
          "d1d92ab76004ce349a97fc5d325eaf9a4a7101b7",
          GitInstallType.CommitHash⟩⟩]

/-- Arguments of the chain-spec generation command in `main`. -/
def chainSpecArgs : List String :=
  ["create", "--runtime", "./runtimes/westend.wasm", "--para-id", "100",
   "--relay-chain", "paseo", "named-preset", "development"]

/-- Arguments of the chain purge command in `main`. -/
def purgeArgs : List String :=
  ["purge-chain", "--chain", "./chain_spec.json", "-y"]

/-- Arguments the omni-node service is launched with in `main`. -/
def omniArgs : List String :=
  ["--chain", "./chain_spec.json", "--dev-block-time", "6000"]

/-- Arguments the ETH RPC service is launched with in `main`. -/
def ethArgs : List String :=
  ["--chain", "./chain_spec.json", "--rpc-cors=all", "--log=debug"]

/-- The chain-preparation phase of `main`: the generate step
`generate_child_process(CHAIN_SPEC_BUILDER, [...])?.wait()?` followed by the
purge step `generate_child_process(POLKADOT_OMNI_NODE_BIN, [...])?.wait()?`.
Each `?` propagates a spawn or wait error; a nonzero exit status is an `Ok`
value of `wait` and is bound to a discarded variable. -/
def prepare_chain (sys : Sys) : Except IOErr Unit × List Action :=
  match generate_child_process sys CHAIN_SPEC_BUILDER chainSpecArgs with
  | (Except.error e, t) => (Except.error e, t)
  | (Except.ok c, t) =>
    match waitChild sys c with
    | Except.error e => (Except.error e, t)
    | Except.ok _ =>
      match generate_child_process sys POLKADOT_OMNI_NODE_BIN purgeArgs with
      | (Except.error e, t2) => (Except.error e, t ++ t2)
      | (Except.ok c2, t2) =>
        match waitChild sys c2 with
        | Except.error e => (Except.error e, t ++ t2)
        | Except.ok _ => (Except.ok (), t ++ t2)

/-- The launch phase of `main`: spawn the omni-node, then the ETH RPC; each
`?` propagates a spawn error directly, with no cleanup of the process
spawned before it. -/
def launch_services (sys : Sys) : Except IOErr (Child × Child) × List Action :=
  match generate_child_process sys POLKADOT_OMNI_NODE_BIN omniArgs with
  | (Except.error e, t) => (Except.error e, t)
  | (Except.ok c1, t) =>
    match generate_child_process sys ETH_RPC_BIN ethArgs with
    | (Except.error e, t2) => (Except.error e, t ++ t2)
    | (Except.ok c2, t2) => (Except.ok (c1, c2), t ++ t2)

/-- How one run of the ctrl-c handler closure ends: it either reaches
`std::process::exit(0)` or panics in one of its two `expect` calls. -/
inductive HandlerOutcome
  | exited (code : Nat)
  | panicked (msg : String)
deriving DecidableEq, Repr

/-- Mirrors the closure passed to the interrupt-handler registration:
`kill_process(omni_node.id()).expect("Omninode failed to be killed");`
`kill_process(eth_rpc.id()).expect("ETH RPC failed to be killed");`
`std::process::exit(0);`.  A `kill_process` error makes the corresponding
`expect` panic, aborting the closure before anything after it runs. -/
def ctrlc_handler (sys : Sys) (omni_node eth_rpc : Child) :
    HandlerOutcome × List Action :=
  match kill_process sys (sys.pid omni_node.bin omni_node.args) with
  | (Except.error _, t) => (HandlerOutcome.panicked "Omninode failed to be killed", t)
  | (Except.ok _, t) =>
    match kill_process sys (sys.pid eth_rpc.bin eth_rpc.args) with
    | (Except.error _, t2) =>
        (HandlerOutcome.panicked "ETH RPC failed to be killed", t ++ t2)
    | (Except.ok _, t2) => (HandlerOutcome.exited 0, t ++ t2)

/-- Observable state of the supervising program after the launch phase:
blocked in the sleep loop with both handles owned by the handler
(`running`), exited via `std::process::exit` (`stopped`), or hung — the
handler thread died in a panic, so the main thread sleeps forever and no
further signal is acted upon (`hung`). -/
inductive ProgState
  | running (omni_node eth_rpc : Child)
  | stopped (code : Nat)
  | hung
deriving DecidableEq, Repr

/-- Delivery of one interrupt signal.  The ctrl-c handler runs its
registered closure sequentially, once per delivered signal; after
`std::process::exit` the process no longer exists and after a handler panic
the handler thread no longer exists, so in both cases a further delivery
performs no action. -/
def deliver_signal (sys : Sys) : ProgState → ProgState × List Action
  | ProgState.running o e =>
    match ctrlc_handler sys o e with
    | (HandlerOutcome.exited c, t) => (ProgState.stopped c, t)
    | (HandlerOutcome.panicked _, t) => (ProgState.hung, t)
  | s => (s, [])

/-- How `main` can end before (or instead of) the supervision loop. -/
inductive MainOutcome
  | err (e : IOErr)
  | panicked
  | parked (omni_node eth_rpc : Child)
deriving DecidableEq, Repr

/-- The sequential phases of `main`: dependency check (a panic inside it
aborts the program), chain preparation and service launch (their `Err`s are
returned from `main`), then the infinite sleep loop with both handles moved
into the signal handler (`parked`). -/
def carp_main (sys : Sys) : MainOutcome × List Action :=
  match check_dependencies sys dependencies with
  | (none, t) => (MainOutcome.panicked, t)
  | (some (Except.error e), t) => (MainOutcome.err e, t)
  | (some (Except.ok _), t) =>
    match prepare_chain sys with
    | (Except.error e, t2) => (MainOutcome.err e, t ++ t2)
    | (Except.ok _, t2) =>
      match launch_services sys with
      | (Except.error e, t3) => (MainOutcome.err e, t ++ t2 ++ t3)
      | (Except.ok (c1, c2), t3) => (MainOutcome.parked c1 c2, t ++ t2 ++ t3)

/-- Is this action an invocation of the external `kill` utility? -/
def isKillAct : Action → Bool
  | Action.spawnCmd b _ => b == "kill"
  | Action.probe _ => false

/-- The launched omni-node handle (value of a successful first spawn). -/
def omniChild : Child := ⟨POLKADOT_OMNI_NODE_BIN, omniArgs⟩

/-- The launched ETH RPC handle (value of a successful second spawn). -/
def ethChild : Child := ⟨ETH_RPC_BIN, ethArgs⟩

/-- An environment where every external command spawns and waits cleanly
with exit status 0; pids are distinct per binary name. -/
def sysAllOk : Sys := ⟨fun _ _ => true, fun _ _ => true, fun _ _ => 0, fun b _ => b.length⟩

/-- An environment where every command spawns and waits, but every command
reports exit status 1 — in particular the `kill` utility runs yet is
rejected by the OS (e.g. the target pid no longer exists). -/
def sysKillRejected : Sys := ⟨fun _ _ => true, fun _ _ => true, fun _ _ => 1, fun _ _ => 7⟩

/-- An environment where presence probes (argument-less spawns) fail and
every real command line spawns fine: every dependency is absent and every
install command runs. -/
def sysAbsent : Sys := ⟨fun _ args => !args.isEmpty, fun _ _ => true, fun _ _ => 0, fun _ _ => 7⟩

/-- An environment where nothing can be spawned at all. -/
def sysNoSpawn : Sys := ⟨fun _ _ => false, fun _ _ => true, fun _ _ => 0, fun _ _ => 7⟩

/-- An environment where the `kill` utility itself cannot be spawned but
everything else works. -/
def sysNoKill : Sys := ⟨fun b _ => !(b == "kill"), fun _ _ => true, fun _ _ => 0, fun _ _ => 7⟩

/-- A source-less dependency, as in the spec's first scenario. -/
def depFoo : Dependency := ⟨"foo", "foo-pkg", none⟩

/-- A second source-less dependency, used as a successor in lists. -/
def depBar : Dependency := ⟨"bar", "bar-pkg", none⟩

/-- An environment where the binary `foo` is absent, every real command
line (such as `cargo install`) spawns, and every command exits with status
1 — in particular `foo`'s install command runs and fails. -/
def sysFooInstallFails : Sys :=
  ⟨fun b args => !(b == "foo" && args.isEmpty), fun _ _ => true, fun _ _ => 1, fun _ _ => 7⟩

/-- An environment where every binary except `eth-rpc` spawns fine: the
first service launch succeeds and the second fails. -/
def sysEthSpawnFails : Sys :=
  ⟨fun b _ => !(b == ETH_RPC_BIN), fun _ _ => true, fun _ _ => 0, fun _ _ => 7⟩

/-- Specification-side definition (from the spec's testable properties, not
from the source, for comparison with `check_dependencies`): the intended
installer behaviour — one presence probe per dependency in list order, and
exactly one install attempt, with the descriptor-determined argument form,
for each absent dependency. -/
def specInstallPlan (sys : Sys) : List Dependency → List Action
  | [] => []
  | dep :: rest =>
    if sys.spawnOk dep.bin [] then Action.probe dep.bin :: specInstallPlan sys rest
    else Action.probe dep.bin :: Action.spawnCmd "cargo" (installArgs dep) ::
           specInstallPlan sys rest

/-- Every run of `install_dependency` performs exactly one spawn attempt:
the `cargo` install command determined by the dependency's descriptor. -/
theorem install_dependency_trace (sys : Sys) (dep : Dependency) :
    (install_dependency sys dep).2 = [Action.spawnCmd "cargo" (installArgs dep)] := by
  cases h : sys.spawnOk "cargo" (installArgs dep) <;>
    simp [install_dependency, generate_child_process, h]

/-- If the install command spawns, `install_dependency` returns `Ok(())`
whatever the command's exit status is (`let _ = ....wait()`). -/
theorem install_dependency_ok_of_spawn (sys : Sys) (dep : Dependency)
    (h : sys.spawnOk "cargo" (installArgs dep) = true) :
    (install_dependency sys dep).1 = Except.ok () := by
  simp [install_dependency, generate_child_process, h]

/-- If the install command cannot be spawned, `install_dependency` returns
the spawn error (which `check_dependencies` turns into a panic). -/
theorem install_dependency_err_of_no_spawn (sys : Sys) (dep : Dependency)
    (h : sys.spawnOk "cargo" (installArgs dep) = false) :
    (install_dependency sys dep).1 = Except.error IOErr.spawnErr := by
  simp [install_dependency, generate_child_process, h]

/-- `check_dependencies` performs exactly the actions of its loop. -/
theorem check_dependencies_trace (sys : Sys) (deps : List Dependency) :
    (check_dependencies sys deps).2 = (check_deps_go sys deps).2 := rfl

/-- Claim C9: `kill_process` returns `Ok` whenever the external `kill`
utility can itself be spawned and waited on, regardless of the `kill`
command's exit status (the returned status is whatever the oracle assigns,
with no constraint relating it to success), and the only process it ever
spawns or waits on is the `kill` command itself — the managed child's own
exit is never awaited. -/
theorem kill_process_ok_regardless_of_status (sys : Sys) (id : Nat)
    (hs : sys.spawnOk "kill" (killArgs id) = true)
    (hw : sys.waitOk "kill" (killArgs id) = true) :
    (kill_process sys id).1 = Except.ok (sys.exitStatus "kill" (killArgs id)) ∧
    (kill_process sys id).2 = [Action.spawnCmd "kill" (killArgs id)] := by
  simp [kill_process, generate_child_process, waitChild, hs, hw]

/-- Witness for C9: in an environment where `kill` runs but exits with
status 1 (the OS rejected the termination request, e.g. the pid no longer
exists), `kill_process` still reports `Ok`. -/
theorem kill_process_ok_regardless_of_status_witness :
    (kill_process sysKillRejected 42).1 = Except.ok 1 :=
  (kill_process_ok_regardless_of_status sysKillRejected 42 rfl rfl).1

/-- Claim C10: `check_dependencies` never returns `Err`: for every
environment and dependency list it either panics (an install `expect`
fired) or returns `Ok(())` — the declared `io::Error` result is
unreachable. -/
theorem check_dependencies_never_returns_err (sys : Sys) (deps : List Dependency) :
    (check_dependencies sys deps).1 = none ∨
    (check_dependencies sys deps).1 = some (Except.ok ()) := by
  cases h : (check_deps_go sys deps).1 <;> simp [check_dependencies, h]

/-- Counterexample to claim C4: when the `kill` utility cannot be spawned,
the handler's first `expect` panics; the program does not exit — the
delivered signal leaves it hung in the sleep loop. -/
theorem terminate_failure_counterexample :
    sysNoKill.spawnOk "kill" (killArgs (sysNoKill.pid omniChild.bin omniChild.args)) = false ∧
    (ctrlc_handler sysNoKill omniChild ethChild).1 =
      HandlerOutcome.panicked "Omninode failed to be killed" ∧
    (deliver_signal sysNoKill (ProgState.running omniChild ethChild)).1 = ProgState.hung := by
  refine ⟨by decide, by decide, by decide⟩

/-- Claim C4 as amended: a terminate request that cannot be issued (spawn
of `kill` fails) is reported through the `expect` panic message, but it
aborts the shutdown sequence: the second child is never sent a terminate
request, `exit(0)` is never reached, and the program is left hung in its
sleep loop instead of exiting. -/
theorem terminate_failure_reported_but_hangs (sys : Sys) (o e : Child)
    (h : sys.spawnOk "kill" (killArgs (sys.pid o.bin o.args)) = false) :
    (ctrlc_handler sys o e).1 = HandlerOutcome.panicked "Omninode failed to be killed" ∧
    (ctrlc_handler sys o e).2 = [Action.spawnCmd "kill" (killArgs (sys.pid o.bin o.args))] ∧
    (deliver_signal sys (ProgState.running o e)).1 = ProgState.hung := by
  refine ⟨?_, ?_, ?_⟩ <;>
    simp [ctrlc_handler, deliver_signal, kill_process, generate_child_process, h]

/-- Witness for the amended C4 at a concrete environment. -/
theorem terminate_failure_reported_but_hangs_witness :
    (ctrlc_handler sysNoKill omniChild ethChild).1 =
      HandlerOutcome.panicked "Omninode failed to be killed" ∧
    (ctrlc_handler sysNoKill omniChild ethChild).2 =
      [Action.spawnCmd "kill" (killArgs (sysNoKill.pid omniChild.bin omniChild.args))] ∧
    (deliver_signal sysNoKill (ProgState.running omniChild ethChild)).1 = ProgState.hung :=
  terminate_failure_reported_but_hangs sysNoKill omniChild ethChild (by decide)

/-- Claim C5: when the `kill` utility can be spawned and waited on, a first
signal delivery in `running` moves the program to `stopped 0`; a second
delivery is a no-op (the state stays `stopped 0` and no further action — in
particular no further terminate request and no panic — is performed), so
the transition to `stopped` happens exactly once; and `kill_process` on any
pid, including one whose process has already exited (the oracle's exit
status for `kill` is unconstrained), returns `Ok` — a tolerated no-op. -/
theorem double_signal_stops_exactly_once (sys : Sys) (o e : Child) (id : Nat)
    (hs : ∀ n, sys.spawnOk "kill" (killArgs n) = true)
    (hw : ∀ n, sys.waitOk "kill" (killArgs n) = true) :
    (deliver_signal sys (ProgState.running o e)).1 = ProgState.stopped 0 ∧
    (deliver_signal sys (deliver_signal sys (ProgState.running o e)).1).1 =
      ProgState.stopped 0 ∧
    (deliver_signal sys (deliver_signal sys (ProgState.running o e)).1).2 = [] ∧
    (kill_process sys id).1 = Except.ok (sys.exitStatus "kill" (killArgs id)) := by
  refine ⟨?_, ?_, ?_, ?_⟩ <;>
    simp [deliver_signal, ctrlc_handler, kill_process, generate_child_process,
      waitChild, hs, hw]

/-- Witness for C5 at a concrete environment with both services running. -/
theorem double_signal_stops_exactly_once_witness :
    (deliver_signal sysAllOk (ProgState.running omniChild ethChild)).1 =
      ProgState.stopped 0 ∧
    (deliver_signal sysAllOk
        (deliver_signal sysAllOk (ProgState.running omniChild ethChild)).1).1 =
      ProgState.stopped 0 ∧
    (deliver_signal sysAllOk
        (deliver_signal sysAllOk (ProgState.running omniChild ethChild)).1).2 = [] ∧
    (kill_process sysAllOk 99).1 = Except.ok (sysAllOk.exitStatus "kill" (killArgs 99)) :=
  double_signal_stops_exactly_once sysAllOk omniChild ethChild 99
    (fun _ => rfl) (fun _ => rfl)

/-- Claim C8: when both service spawns succeed, the launch phase returns
both handles, and a subsequent interrupt delivery issues a terminate
request (a `kill` invocation) for each of the two pids, in order, and moves
the program to `stopped 0` — exit status 0, clean shutdown — provided the
`kill` utility itself spawns and waits. -/
theorem interrupt_after_full_launch_clean_exit (sys : Sys)
    (h1 : sys.spawnOk POLKADOT_OMNI_NODE_BIN omniArgs = true)
    (h2 : sys.spawnOk ETH_RPC_BIN ethArgs = true)
    (hs : ∀ n, sys.spawnOk "kill" (killArgs n) = true)
    (hw : ∀ n, sys.waitOk "kill" (killArgs n) = true) :
    (launch_services sys).1 = Except.ok (omniChild, ethChild) ∧
    (deliver_signal sys (ProgState.running omniChild ethChild)).1 = ProgState.stopped 0 ∧
    (deliver_signal sys (ProgState.running omniChild ethChild)).2 =
      [Action.spawnCmd "kill" (killArgs (sys.pid POLKADOT_OMNI_NODE_BIN omniArgs)),
       Action.spawnCmd "kill" (killArgs (sys.pid ETH_RPC_BIN ethArgs))] := by
  refine ⟨?_, ?_, ?_⟩ <;>
    simp [launch_services, deliver_signal, ctrlc_handler, kill_process,
      generate_child_process, waitChild, omniChild, ethChild, h1, h2, hs, hw]

/-- Witness for C8: concrete clean-shutdown run; the two terminate requests
target the two distinct pids. -/
theorem interrupt_after_full_launch_clean_exit_witness :
    (launch_services sysAllOk).1 = Except.ok (omniChild, ethChild) ∧
    (deliver_signal sysAllOk (ProgState.running omniChild ethChild)).1 =
      ProgState.stopped 0 ∧
    (deliver_signal sysAllOk (ProgState.running omniChild ethChild)).2 =
      [Action.spawnCmd "kill" (killArgs (sysAllOk.pid POLKADOT_OMNI_NODE_BIN omniArgs)),
       Action.spawnCmd "kill" (killArgs (sysAllOk.pid ETH_RPC_BIN ethArgs))] :=
  interrupt_after_full_launch_clean_exit sysAllOk rfl rfl (fun _ => rfl) (fun _ => rfl)

/-- Unfolding lemma: a present dependency contributes only its probe. -/
theorem check_deps_go_cons_present (sys : Sys) (dep : Dependency) (rest : List Dependency)
    (hp : sys.spawnOk dep.bin [] = true) :
    check_deps_go sys (dep :: rest) =
      ((check_deps_go sys rest).1, Action.probe dep.bin :: (check_deps_go sys rest).2) := by
  simp [check_deps_go, hp]

/-- Unfolding lemma: an absent dependency contributes its probe and exactly
one install attempt; when that attempt cannot be spawned the traversal
panics on the spot. -/
theorem check_deps_go_cons_absent (sys : Sys) (dep : Dependency) (rest : List Dependency)
    (hp : sys.spawnOk dep.bin [] = false) :
    check_deps_go sys (dep :: rest) =
      if sys.spawnOk "cargo" (installArgs dep) then
        ((check_deps_go sys rest).1,
         Action.probe dep.bin :: Action.spawnCmd "cargo" (installArgs dep) ::
           (check_deps_go sys rest).2)
      else (none, [Action.probe dep.bin, Action.spawnCmd "cargo" (installArgs dep)]) := by
  cases hc : sys.spawnOk "cargo" (installArgs dep) <;>
    simp [check_deps_go, install_dependency, generate_child_process, hp, hc]

/-- Every spawn attempt the dependency loop performs, other than a probe,
is the install command of some absent dependency of the list. -/
theorem check_deps_go_spawn_mem (sys : Sys) (deps : List Dependency) :
    ∀ bin args, Action.spawnCmd bin args ∈ (check_deps_go sys deps).2 →
      ∃ dep, dep ∈ deps ∧ sys.spawnOk dep.bin [] = false ∧
        bin = "cargo" ∧ args = installArgs dep := by
  induction deps with
  | nil => intro bin args h; simp [check_deps_go] at h
  | cons dep rest ih =>
    intro bin args h
    cases hp : sys.spawnOk dep.bin [] with
    | true =>
      rw [check_deps_go_cons_present sys dep rest hp] at h
      simp only [List.mem_cons] at h
      rcases h with h | h
      · exact absurd h (by simp)
      · obtain ⟨d, hd, h2⟩ := ih bin args h
        exact ⟨d, List.mem_cons_of_mem _ hd, h2⟩
    | false =>
      rw [check_deps_go_cons_absent sys dep rest hp] at h
      cases hc : sys.spawnOk "cargo" (installArgs dep) <;> simp [hc] at h
      · rcases h with ⟨hb, ha⟩
        exact ⟨dep, List.mem_cons_self _ _, hp, hb, ha⟩
      · rcases h with ⟨hb, ha⟩ | h
        · exact ⟨dep, List.mem_cons_self _ _, hp, hb, ha⟩
        · obtain ⟨d, hd, h2⟩ := ih bin args h
          exact ⟨d, List.mem_cons_of_mem _ hd, h2⟩

/-- When every dependency is present the loop performs only the probes. -/
theorem check_deps_go_all_present (sys : Sys) (deps : List Dependency)
    (h : ∀ dep, dep ∈ deps → sys.spawnOk dep.bin [] = true) :
    check_deps_go sys deps = (some (), deps.map fun dep => Action.probe dep.bin) := by
  induction deps with
  | nil => simp [check_deps_go]
  | cons dep rest ih =>
    rw [check_deps_go_cons_present sys dep rest (h dep (List.mem_cons_self _ _)),
        ih fun d hd => h d (List.mem_cons_of_mem _ hd)]
    simp

/-- Claim C6: the installer never invokes the install step for a dependency
whose presence probe succeeds — every non-probe spawn in the action trace
is the install command of some absent dependency — and when every
dependency's probe succeeds the whole run performs exactly the probes, in
list order, and nothing else. -/
theorem installer_skips_present (sys : Sys) (deps : List Dependency) :
    (∀ bin args, Action.spawnCmd bin args ∈ (check_dependencies sys deps).2 →
      ∃ dep, dep ∈ deps ∧ sys.spawnOk dep.bin [] = false ∧
        bin = "cargo" ∧ args = installArgs dep) ∧
    ((∀ dep, dep ∈ deps → sys.spawnOk dep.bin [] = true) →
      (check_dependencies sys deps).2 = deps.map fun dep => Action.probe dep.bin) := by
  constructor
  · intro bin args h
    exact check_deps_go_spawn_mem sys deps bin args h
  · intro h
    show (check_deps_go sys deps).2 = _
    rw [check_deps_go_all_present sys deps h]

/-- Witness for C6: with all three real dependencies present only probes
happen; and the one non-probe spawn of an absent-`foo` run is `foo`'s own
install command. -/
theorem installer_skips_present_witness :
    (check_dependencies sysAllOk dependencies).2 =
      dependencies.map (fun dep => Action.probe dep.bin) ∧
    ∃ dep, dep ∈ [depFoo] ∧ sysAbsent.spawnOk dep.bin [] = false ∧
      "cargo" = "cargo" ∧ ["install", "foo-pkg"] = installArgs dep :=
  ⟨(installer_skips_present sysAllOk dependencies).2 fun _ _ => rfl,
   (installer_skips_present sysAbsent [depFoo]).1 "cargo" ["install", "foo-pkg"]
     (by decide)⟩

/-- When the dependency loop finishes without panicking, its action trace
is exactly the specified plan. -/
theorem check_deps_go_plan (sys : Sys) (deps : List Dependency)
    (h : (check_deps_go sys deps).1 = some ()) :
    (check_deps_go sys deps).2 = specInstallPlan sys deps := by
  induction deps with
  | nil => simp [check_deps_go, specInstallPlan]
  | cons dep rest ih =>
    cases hp : sys.spawnOk dep.bin [] with
    | true =>
      have h' : (check_deps_go sys rest).1 = some () := by
        rw [check_deps_go_cons_present sys dep rest hp] at h; exact h
      rw [check_deps_go_cons_present sys dep rest hp]
      simp [specInstallPlan, hp, ih h']
    | false =>
      cases hc : sys.spawnOk "cargo" (installArgs dep) with
      | true =>
        have h' : (check_deps_go sys rest).1 = some () := by
          rw [check_deps_go_cons_absent sys dep rest hp] at h
          simpa [hc] using h
        rw [check_deps_go_cons_absent sys dep rest hp]
        simp [specInstallPlan, hp, hc, ih h']
      | false =>
        rw [check_deps_go_cons_absent sys dep rest hp] at h
        simp [hc] at h

/-- Claim C7: on a run that completes, the installer's action trace is
exactly one probe per dependency plus exactly one install attempt per
absent dependency (the specified plan), and the install command's argument
form is install-by-name with no pinning arguments when there is no source
descriptor, `--tag`-pinned with the repository URL for a `Tag` reference,
and `--rev`-pinned with the repository URL for a `CommitHash` reference. -/
theorem one_install_per_absent_dependency (sys : Sys) (deps : List Dependency)
    (b ib u r : String)
    (h : ((check_dependencies sys deps).1).isSome = true) :
    (check_dependencies sys deps).2 = specInstallPlan sys deps ∧
    installArgs ⟨b, ib, none⟩ = ["install", ib] ∧
    installArgs ⟨b, ib, some ⟨u, r, GitInstallType.Tag⟩⟩ =
      ["install", "--git", u, "--tag", r, ib] ∧
    installArgs ⟨b, ib, some ⟨u, r, GitInstallType.CommitHash⟩⟩ =
      ["install", "--git", u, "--rev", r, ib] := by
  refine ⟨?_, rfl, rfl, rfl⟩
  have h1 : ((check_deps_go sys deps).1).isSome = true := by
    simpa [check_dependencies] using h
  obtain ⟨u', hu⟩ := Option.isSome_iff_exists.mp h1
  cases u'
  exact check_deps_go_plan sys deps hu

/-- Witness for C7: a completing run over an absent `foo`, plus the three
concrete argument forms at the spec's scenario values. -/
theorem one_install_per_absent_dependency_witness :
    (check_dependencies sysAbsent [depFoo]).2 = specInstallPlan sysAbsent [depFoo] ∧
    installArgs ⟨"bar", "bar-pkg", none⟩ = ["install", "bar-pkg"] ∧
    installArgs ⟨"bar", "bar-pkg", some ⟨"U", "v1.0", GitInstallType.Tag⟩⟩ =
      ["install", "--git", "U", "--tag", "v1.0", "bar-pkg"] ∧
    installArgs ⟨"bar", "bar-pkg", some ⟨"U", "v1.0", GitInstallType.CommitHash⟩⟩ =
      ["install", "--git", "U", "--rev", "v1.0", "bar-pkg"] :=
  one_install_per_absent_dependency sysAbsent [depFoo] "bar" "bar-pkg" "U" "v1.0"
    (by decide)

/-- Counterexample to claim C2: `foo` is absent, its install command runs
and exits with status 1 (an install failure in the claim's sense), yet the
program does not halt — the loop returns `Ok(())` and the later dependency
`bar` is still probed. -/
theorem install_nonzero_exit_not_fatal_counterexample :
    sysFooInstallFails.spawnOk "foo" [] = false ∧
    sysFooInstallFails.spawnOk "cargo" (installArgs depFoo) = true ∧
    sysFooInstallFails.exitStatus "cargo" (installArgs depFoo) = 1 ∧
    (check_dependencies sysFooInstallFails [depFoo, depBar]).1 = some (Except.ok ()) ∧
    (check_dependencies sysFooInstallFails [depFoo, depBar]).2 =
      [Action.probe "foo", Action.spawnCmd "cargo" ["install", "foo-pkg"],
       Action.probe "bar"] :=
  ⟨rfl, rfl, rfl, rfl, rfl⟩

/-- If a prefix of the list is processed without a panic and then an absent
dependency's install command cannot be spawned, the traversal panics right
there: nothing after that install attempt is executed. -/
theorem check_deps_go_append_panic (sys : Sys) (pre : List Dependency) (dep : Dependency)
    (post : List Dependency)
    (hpre : (check_deps_go sys pre).1 = some ())
    (habs : sys.spawnOk dep.bin [] = false)
    (hins : sys.spawnOk "cargo" (installArgs dep) = false) :
    check_deps_go sys (pre ++ dep :: post) =
      (none, (check_deps_go sys pre).2 ++
        [Action.probe dep.bin, Action.spawnCmd "cargo" (installArgs dep)]) := by
  induction pre with
  | nil =>
    rw [List.nil_append, check_deps_go_cons_absent sys dep post habs]
    simp [check_deps_go, hins]
  | cons p pre ih =>
    cases hp : sys.spawnOk p.bin [] with
    | true =>
      have hpre' : (check_deps_go sys pre).1 = some () := by
        rw [check_deps_go_cons_present sys p pre hp] at hpre; exact hpre
      rw [List.cons_append, check_deps_go_cons_present sys p (pre ++ dep :: post) hp,
          check_deps_go_cons_present sys p pre hp, ih hpre']
      simp
    | false =>
      cases hc : sys.spawnOk "cargo" (installArgs p) with
      | true =>
        have hpre' : (check_deps_go sys pre).1 = some () := by
          rw [check_deps_go_cons_absent sys p pre hp] at hpre
          simpa [hc] using hpre
        rw [List.cons_append, check_deps_go_cons_absent sys p (pre ++ dep :: post) hp,
            check_deps_go_cons_absent sys p pre hp, ih hpre']
        simp [hc]
      | false =>
        rw [check_deps_go_cons_absent sys p pre hp] at hpre
        simp [hc] at hpre

/-- Claim C2 as amended: only an install command that fails to spawn is
fatal — the program panics at that dependency and no later dependency is
probed or installed (the action trace ends with the failed install
attempt).  An install command that spawns but exits non-zero is not
detected: its exit status is discarded and processing continues (see the
counterexample). -/
theorem install_spawn_failure_fatal (sys : Sys) (pre : List Dependency) (dep : Dependency)
    (post : List Dependency)
    (hpre : (check_deps_go sys pre).1 = some ())
    (habs : sys.spawnOk dep.bin [] = false)
    (hins : sys.spawnOk "cargo" (installArgs dep) = false) :
    (check_dependencies sys (pre ++ dep :: post)).1 = none ∧
    (check_dependencies sys (pre ++ dep :: post)).2 =
      (check_deps_go sys pre).2 ++
        [Action.probe dep.bin, Action.spawnCmd "cargo" (installArgs dep)] := by
  have h := check_deps_go_append_panic sys pre dep post hpre habs hins
  simp [check_dependencies, h]

/-- Witness for the amended C2: with spawning broken, an absent `foo`
panics the program and the pending `bar` is never reached. -/
theorem install_spawn_failure_fatal_witness :
    (check_dependencies sysNoSpawn ([] ++ depFoo :: [depBar])).1 = none ∧
    (check_dependencies sysNoSpawn ([] ++ depFoo :: [depBar])).2 =
      (check_deps_go sysNoSpawn []).2 ++
        [Action.probe depFoo.bin, Action.spawnCmd "cargo" (installArgs depFoo)] :=
  install_spawn_failure_fatal sysNoSpawn [] depFoo [depBar] rfl rfl rfl

/-- Counterexample to claim C3: the generate command runs and exits with
status 1 (a generate failure in the claim's sense), yet preparation is not
stopped — the purge command is still attempted and the phase reports
success. -/
theorem generate_nonzero_exit_not_fatal_counterexample :
    sysKillRejected.exitStatus CHAIN_SPEC_BUILDER chainSpecArgs = 1 ∧
    (prepare_chain sysKillRejected).1 = Except.ok () ∧
    (prepare_chain sysKillRejected).2 =
      [Action.spawnCmd CHAIN_SPEC_BUILDER chainSpecArgs,
       Action.spawnCmd POLKADOT_OMNI_NODE_BIN purgeArgs] :=
  ⟨rfl, rfl, rfl⟩

/-- Claim C3 as amended: the generate step is always issued before the
purge step (the trace is either the generate attempt alone or the generate
attempt followed by the purge attempt); if the generate command cannot be
spawned this is fatal and the purge step is never attempted; but a generate
command that spawns, is waited on and exits non-zero is tolerated — the
purge step is attempted anyway. -/
theorem generate_before_purge (sys : Sys) :
    ((prepare_chain sys).2 = [Action.spawnCmd CHAIN_SPEC_BUILDER chainSpecArgs] ∨
     (prepare_chain sys).2 =
       [Action.spawnCmd CHAIN_SPEC_BUILDER chainSpecArgs,
        Action.spawnCmd POLKADOT_OMNI_NODE_BIN purgeArgs]) ∧
    (sys.spawnOk CHAIN_SPEC_BUILDER chainSpecArgs = false →
      (prepare_chain sys).1 = Except.error IOErr.spawnErr ∧
      (prepare_chain sys).2 = [Action.spawnCmd CHAIN_SPEC_BUILDER chainSpecArgs]) ∧
    (sys.spawnOk CHAIN_SPEC_BUILDER chainSpecArgs = true →
      sys.waitOk CHAIN_SPEC_BUILDER chainSpecArgs = true →
      Action.spawnCmd POLKADOT_OMNI_NODE_BIN purgeArgs ∈ (prepare_chain sys).2) := by
  cases h1 : sys.spawnOk CHAIN_SPEC_BUILDER chainSpecArgs <;>
  cases h2 : sys.waitOk CHAIN_SPEC_BUILDER chainSpecArgs <;>
  cases h3 : sys.spawnOk POLKADOT_OMNI_NODE_BIN purgeArgs <;>
  cases h4 : sys.waitOk POLKADOT_OMNI_NODE_BIN purgeArgs <;>
    simp [prepare_chain, generate_child_process, waitChild, h1, h2, h3, h4]

/-- Witness for the amended C3: with spawning broken, generation is fatal
and the trace is the lone generate attempt. -/
theorem generate_before_purge_witness :
    (prepare_chain sysNoSpawn).1 = Except.error IOErr.spawnErr ∧
    (prepare_chain sysNoSpawn).2 = [Action.spawnCmd CHAIN_SPEC_BUILDER chainSpecArgs] :=
  (generate_before_purge sysNoSpawn).2.1 rfl

/-- A successful launch phase presupposes that both service spawns
succeeded. -/
theorem launch_services_ok_spawns (sys : Sys) (p : Child × Child)
    (h : (launch_services sys).1 = Except.ok p) :
    sys.spawnOk POLKADOT_OMNI_NODE_BIN omniArgs = true ∧
    sys.spawnOk ETH_RPC_BIN ethArgs = true := by
  cases h1 : sys.spawnOk POLKADOT_OMNI_NODE_BIN omniArgs <;>
  cases h2 : sys.spawnOk ETH_RPC_BIN ethArgs <;>
    simp [launch_services, generate_child_process, h1, h2] at h ⊢

/-- Counterexample to claim C1: the first service spawn succeeds, the
second fails; the overall operation does report failure, but no `kill`
invocation ever appears in the action trace — the already-launched first
process is not terminated before the error propagates; it is orphaned. -/
theorem partial_launch_no_rollback_counterexample :
    sysEthSpawnFails.spawnOk POLKADOT_OMNI_NODE_BIN omniArgs = true ∧
    sysEthSpawnFails.spawnOk ETH_RPC_BIN ethArgs = false ∧
    (launch_services sysEthSpawnFails).1 = Except.error IOErr.spawnErr ∧
    (launch_services sysEthSpawnFails).2 =
      [Action.spawnCmd POLKADOT_OMNI_NODE_BIN omniArgs,
       Action.spawnCmd ETH_RPC_BIN ethArgs] ∧
    (carp_main sysEthSpawnFails).1 = MainOutcome.err IOErr.spawnErr ∧
    ((carp_main sysEthSpawnFails).2.all fun a => !(isKillAct a)) = true :=
  ⟨rfl, rfl, rfl, rfl, rfl, rfl⟩

/-- Claim C1 as amended: the supervision loop (`Running`) is reached only
when both service spawns succeeded, so it never holds fewer than two live
handles; but when the first spawn succeeds and the second fails, the
operation merely reports failure — no `kill` is issued for the
already-launched first process, which is left orphaned. -/
theorem running_requires_both_spawns (sys : Sys) (o e2 : Child) :
    ((carp_main sys).1 = MainOutcome.parked o e2 →
      sys.spawnOk POLKADOT_OMNI_NODE_BIN omniArgs = true ∧
      sys.spawnOk ETH_RPC_BIN ethArgs = true) ∧
    (sys.spawnOk POLKADOT_OMNI_NODE_BIN omniArgs = true →
      sys.spawnOk ETH_RPC_BIN ethArgs = false →
      (launch_services sys).1 = Except.error IOErr.spawnErr ∧
      ((launch_services sys).2.all fun a => !(isKillAct a)) = true ∧
      (launch_services sys).2 =
        [Action.spawnCmd POLKADOT_OMNI_NODE_BIN omniArgs,
         Action.spawnCmd ETH_RPC_BIN ethArgs]) := by
  constructor
  · intro hp
    rcases hc : check_dependencies sys dependencies with ⟨ro, t⟩
    rcases ro with _ | ro
    · simp [carp_main, hc] at hp
    · rcases ro with e | u
      · simp [carp_main, hc] at hp
      · rcases hq : prepare_chain sys with ⟨rq, t2⟩
        rcases rq with e | u2
        · simp [carp_main, hc, hq] at hp
        · rcases hl : launch_services sys with ⟨rl, t3⟩
          rcases rl with e | p
          · simp [carp_main, hc, hq, hl] at hp
          · exact launch_services_ok_spawns sys p (by rw [hl])
  · intro h1 h2
    refine ⟨?_, ?_, ?_⟩ <;>
      simp [launch_services, generate_child_process, isKillAct, h1, h2]
    decide

/-- Witness for the amended C1 at the concrete partial-launch
environment. -/
theorem running_requires_both_spawns_witness :
    (launch_services sysEthSpawnFails).1 = Except.error IOErr.spawnErr ∧
    ((launch_services sysEthSpawnFails).2.all fun a => !(isKillAct a)) = true ∧
    (launch_services sysEthSpawnFails).2 =
      [Action.spawnCmd POLKADOT_OMNI_NODE_BIN omniArgs,
       Action.spawnCmd ETH_RPC_BIN ethArgs] :=
  (running_requires_both_spawns sysEthSpawnFails omniChild ethChild).2
    (by decide) (by decide)

end Carp
